import Mathlib

/-
  Verification of the Iron Dome for Mosquitoes detection-and-alert pipeline.

  Shallow embedding of the core pipeline code:
    - src/src/prevention/prevention_manager.py  (PreventionManager: the Alert Engine)
    - src/src/core/system_manager.py            (SystemManager detection worker)
    - src/src/detection/mosquito_detector.py    (MosquitoDetector.detect)
    - src/src/camera/camera_manager.py          (CameraManager._get_phone_link_frames)
    - src/src/monitoring/monitoring_manager.py  (MonitoringManager._check_system_health)
    - src/src/utils/config_loader.py            (ConfigLoader.load and validation)

  Conventions: Python ints are modelled as Int, floats (confidence values,
  psutil percentages, YAML numbers) as ℚ since only order comparisons on
  exact config/threshold constants matter here, datetime instants as Int
  (seconds); datetime subtraction and timedelta comparison become Int
  subtraction and comparison.  Logging calls are side effects with no
  data-flow into any claim and are dropped.  Exception handlers in the
  source that swallow an error and return a value become total functions
  returning that value.
-/

namespace IronDome

/-- One detection dict produced by MosquitoDetector.detect
(src/src/detection/mosquito_detector.py lines 98-104); the bbox and
timestamp fields carry no data-flow into the claims and are omitted. -/
structure Detection where
  class_name : String
  class_id : Int
  confidence : ℚ
deriving DecidableEq

/-- The detection_data dict built by the detection worker
(src/src/core/system_manager.py lines 168-174). -/
structure DetectionData where
  timestamp : Int
  classes : List String
  confidence : ℚ
  detections : List Detection
  image_path : String
deriving DecidableEq

/-- The PreventionManager configuration fields read in __init__
(src/src/prevention/prevention_manager.py lines 19-22). -/
structure PreventionConfig where
  enabled : Bool
  methods : List String
  alert_threshold : Int
  cooldown_period : Int
deriving DecidableEq

/-- The alert_record dict built in _trigger_prevention_actions
(src/src/prevention/prevention_manager.py lines 115-120). -/
structure AlertRecord where
  timestamp : Int
  detection_count : Int
  detection_data : DetectionData
  methods_triggered : List String
deriving DecidableEq

/-- The mutable tracking state of PreventionManager
(src/src/prevention/prevention_manager.py lines 25-27). -/
structure PreventionState where
  detection_count : Int
  last_alert_time : Option Int
  alert_history : List AlertRecord
deriving DecidableEq

/-- The cooldown test of _should_trigger_alert lines 95-97:
`self.last_alert_time and current_time - self.last_alert_time <
timedelta(seconds=self.cooldown_period)` (a datetime object is always
truthy, so the first conjunct is just presence of last_alert_time). -/
def cooldown_active (cfg : PreventionConfig) (s : PreventionState) (now : Int) : Bool :=
  match s.last_alert_time with
  | some t => decide (now - t < cfg.cooldown_period)
  | none => false

/-- PreventionManager._should_trigger_alert
(src/src/prevention/prevention_manager.py lines 90-103). -/
def should_trigger_alert (cfg : PreventionConfig) (s : PreventionState) (now : Int) : Bool :=
  if cooldown_active cfg s now then false
  else if decide (cfg.alert_threshold ≤ s.detection_count) then true
  else false

/-- PreventionManager._trigger_prevention_actions
(src/src/prevention/prevention_manager.py lines 105-132).  Source order is
kept: last_alert_time is set and detection_count reset to 0 BEFORE the
alert_record dict is built, so the record reads the already-reset counter.
The per-method actions (_send_alert etc., lines 134-187) only print/log and
are dropped; the method returns True. -/
def trigger_prevention_actions (cfg : PreventionConfig) (s : PreventionState) (now : Int)
    (detection_data : DetectionData) : PreventionState × Bool :=
  let s1 : PreventionState := { s with last_alert_time := some now, detection_count := 0 }
  let record : AlertRecord :=
    { timestamp := now
      detection_count := s1.detection_count
      detection_data := detection_data
      methods_triggered := cfg.methods }
  ({ s1 with alert_history := s1.alert_history ++ [record] }, true)

/-- PreventionManager.process_detection
(src/src/prevention/prevention_manager.py lines 60-88): returns the new
state plus the Bool the method returns (True exactly when prevention
actions were triggered). -/
def process_detection (cfg : PreventionConfig) (s : PreventionState) (now : Int)
    (detection_data : DetectionData) : PreventionState × Bool :=
  if cfg.enabled = false then (s, false)
  else
    let s1 : PreventionState := { s with detection_count := s.detection_count + 1 }
    if should_trigger_alert cfg s1 now then
      trigger_prevention_actions cfg s1 now detection_data
    else (s1, false)

/-- PreventionManager.reset_detection_count
(src/src/prevention/prevention_manager.py lines 196-199). -/
def reset_detection_count (s : PreventionState) : PreventionState :=
  { s with detection_count := 0 }

/-- Python list slice l[start:] (only a start index, no stop):
a negative start counts from the end clamped to 0, a nonnegative start is
clamped to the length. -/
def pySliceFrom {α : Type} (l : List α) (start : Int) : List α :=
  let n : Int := (l.length : Int)
  let i : Int := if start < 0 then max (n + start) 0 else min start n
  l.drop i.toNat

/-- PreventionManager.get_alert_history
(src/src/prevention/prevention_manager.py lines 201-203):
`self.alert_history[-limit:] if self.alert_history else []`. -/
def get_alert_history (s : PreventionState) (limit : Int) : List AlertRecord :=
  if s.alert_history.isEmpty then [] else pySliceFrom s.alert_history (-limit)

/-- A frame dict as produced by CameraManager (src/src/camera/camera_manager.py
lines 169-179); only the identity matters to the claims — the image buffer
and metadata are opaque to the worker logic modelled here. -/
structure Frame where
  file_path : String
deriving DecidableEq

/-- MosquitoDetector.detect (src/src/detection/mosquito_detector.py lines
60-115).  The YOLO inference plus the per-box mapping to detection dicts is
the external capability, abstracted as run_model; the modelled part is the
guard and the exception handling: a missing model logs and returns [], a
raising inference is caught, logged, and [] is returned. -/
def MosquitoDetector_detect (model_loaded : Bool)
    (run_model : Frame → Except String (List Detection)) (frame : Frame) : List Detection :=
  if model_loaded = false then []
  else
    match run_model frame with
    | Except.ok ds => ds
    | Except.error _ => []

/-- The MonitoringManager counters touched by the detection path
(src/src/monitoring/monitoring_manager.py lines 74-75, 209, 225). -/
structure MonitoringStats where
  detection_count : Nat
  error_count : Nat
deriving DecidableEq

/-- MonitoringManager.log_detection restricted to its counter update
(src/src/monitoring/monitoring_manager.py line 209). -/
def MonitoringManager_log_detection (m : MonitoringStats) : MonitoringStats :=
  { m with detection_count := m.detection_count + 1 }

/-- MonitoringManager.log_error restricted to its counter update
(src/src/monitoring/monitoring_manager.py line 225). -/
def MonitoringManager_log_error (m : MonitoringStats) : MonitoringStats :=
  { m with error_count := m.error_count + 1 }

/-- Python max(l) with the source's `if detections else 0` fallback
(src/src/core/system_manager.py line 171). -/
def pyMaxQ (l : List ℚ) : ℚ :=
  match l with
  | [] => 0
  | x :: xs => xs.foldl max x

/-- The event-construction step of the detection worker
(src/src/core/system_manager.py lines 166-174): the detection_data dict is
built ONLY under `if detections:`; an empty detection list produces none. -/
def detection_worker_event (detections : List Detection) (now : Int) : Option DetectionData :=
  if detections.isEmpty then none
  else
    some { timestamp := now
           classes := detections.map (fun d => d.class_name)
           confidence := pyMaxQ (detections.map (fun d => d.confidence))
           detections := detections
           image_path := "data/detections/detection_" ++ toString now ++ ".jpg" }

/-- One frame iteration of the detection worker loop
(src/src/core/system_manager.py lines 162-185): run the detector, and only
when an event is constructed feed the Alert Engine (process_detection) and
monitoring (log_detection).  Returns the updated (prevention, monitoring)
state and whether an alert fired on this frame.  The database write, web
broadcast, and Google Drive upload have no flow back into this state. -/
def detection_worker_step (cfg : PreventionConfig) (model_loaded : Bool)
    (run_model : Frame → Except String (List Detection)) (frame : Frame) (now : Int)
    (st : PreventionState × MonitoringStats) : (PreventionState × MonitoringStats) × Bool :=
  let detections := MosquitoDetector_detect model_loaded run_model frame
  match detection_worker_event detections now with
  | none => (st, false)
  | some data =>
    let r := process_detection cfg st.1 now data
    ((r.1, MonitoringManager_log_detection st.2), r.2)

/-- The detection worker loop over a finite schedule of (frame, time)
pairs (src/src/core/system_manager.py lines 156-201), also counting how
many alerts fired. -/
def detection_worker_run (cfg : PreventionConfig) (model_loaded : Bool)
    (run_model : Frame → Except String (List Detection)) :
    List (Frame × Int) → PreventionState × MonitoringStats →
      (PreventionState × MonitoringStats) × Nat
  | [], st => (st, 0)
  | (frame, now) :: rest, st =>
    let r := detection_worker_step cfg model_loaded run_model frame now st
    let k := detection_worker_run cfg model_loaded run_model rest r.1
    (k.1, (if r.2 then 1 else 0) + k.2)

/-- CameraManager._get_phone_link_frames (src/src/camera/camera_manager.py
lines 150-193): iterate the globbed file list; a file already in
processed_files is skipped; otherwise cv2.imread is attempted (read_ok
abstracts "imread returned a non-None image and no exception was raised");
on success the frame identity is emitted and the file is added to
processed_files; on failure the file is skipped and NOT marked processed.
Returns (emitted identities in order, updated processed_files). -/
def get_phone_link_frames_loop (read_ok : String → Bool) :
    List String → List String → List String × List String
  | [], processed => ([], processed)
  | f :: rest, processed =>
    if f ∈ processed then get_phone_link_frames_loop read_ok rest processed
    else if read_ok f then
      let r := get_phone_link_frames_loop read_ok rest (processed ++ [f])
      (f :: r.1, r.2)
    else get_phone_link_frames_loop read_ok rest processed

/-- A whole process lifetime of ingestion polls: each poll sees a file
listing and a read outcome per file; processed_files persists across polls
(it is only ever added to, src/src/camera/camera_manager.py line 185).
Returns all emitted identities in order plus the final processed set. -/
def phone_link_run : List (List String × (String → Bool)) → List String →
    List String × List String
  | [], processed => ([], processed)
  | (files, read_ok) :: polls, processed =>
    let r1 := get_phone_link_frames_loop read_ok files processed
    let r2 := phone_link_run polls r1.2
    (r1.1 ++ r2.1, r2.2)

/-- MonitoringManager._check_system_health
(src/src/monitoring/monitoring_manager.py lines 134-162): builds the
health_issues list with the hard-coded comparisons cpu > 80, memory > 85,
disk > 90 and sets health_status to warning when any issue exists, else
healthy.  Returns (health_status, health_issues). -/
def check_system_health (cpu_usage memory_usage disk_usage : ℚ) : String × List String :=
  let issues1 : List String := if 80 < cpu_usage then ["High CPU usage"] else []
  let issues2 : List String := if 85 < memory_usage then issues1 ++ ["High memory usage"] else issues1
  let issues3 : List String := if 90 < disk_usage then issues2 ++ ["High disk usage"] else issues2
  (if issues3.isEmpty then "healthy" else "warning", issues3)

/-- The detection settings validated by ConfigLoader._validate_detection_settings
(src/src/utils/config_loader.py lines 215-229). -/
structure DetectionSettings where
  confidence_threshold : ℚ
  iou_threshold : ℚ
  detection_interval : ℚ
deriving DecidableEq

/-- The performance settings validated by ConfigLoader._validate_performance_settings
(src/src/utils/config_loader.py lines 243-253). -/
structure PerformanceSettings where
  cpu_limit : Int
  batch_size : Int
deriving DecidableEq

/-- The USB camera settings validated by ConfigLoader._validate_camera_settings
(src/src/utils/config_loader.py lines 231-241); resolution is kept as the
length of the configured list. -/
structure UsbCameraSettings where
  enabled : Bool
  resolution_length : Nat
  fps : Int
deriving DecidableEq

/-- The slice of the merged configuration that ConfigLoader._validate_config
inspects.  _validate_paths (lines 198-213) only creates missing parent
directories and raises nothing on the values themselves, so it has no
data-flow here. -/
structure LoadedConfig where
  detection : DetectionSettings
  performance : PerformanceSettings
  usb_camera : UsbCameraSettings
deriving DecidableEq

/-- ConfigLoader._validate_detection_settings
(src/src/utils/config_loader.py lines 215-229), with ValueError modelled
as Except.error carrying the message. -/
def validate_detection_settings (c : DetectionSettings) : Except String Unit :=
  if ¬ (0 ≤ c.confidence_threshold ∧ c.confidence_threshold ≤ 1) then
    Except.error "confidence_threshold must be between 0.0 and 1.0"
  else if ¬ (0 ≤ c.iou_threshold ∧ c.iou_threshold ≤ 1) then
    Except.error "iou_threshold must be between 0.0 and 1.0"
  else if c.detection_interval ≤ 0 then
    Except.error "detection_interval must be positive"
  else Except.ok ()

/-- ConfigLoader._validate_camera_settings
(src/src/utils/config_loader.py lines 231-241). -/
def validate_camera_settings (c : UsbCameraSettings) : Except String Unit :=
  if c.enabled then
    if c.resolution_length ≠ 2 then
      Except.error "USB camera resolution must be a list of 2 integers"
    else if c.fps ≤ 0 then
      Except.error "USB camera FPS must be positive"
    else Except.ok ()
  else Except.ok ()

/-- ConfigLoader._validate_performance_settings
(src/src/utils/config_loader.py lines 243-253). -/
def validate_performance_settings (c : PerformanceSettings) : Except String Unit :=
  if ¬ (0 ≤ c.cpu_limit ∧ c.cpu_limit ≤ 100) then
    Except.error "cpu_limit must be between 0 and 100"
  else if c.batch_size ≤ 0 then
    Except.error "batch_size must be positive"
  else Except.ok ()

/-- ConfigLoader._validate_config (src/src/utils/config_loader.py lines
177-196): runs the validators in source order, re-raising the first error. -/
def validate_config (c : LoadedConfig) : Except String Unit := do
  validate_detection_settings c.detection
  validate_camera_settings c.usb_camera
  validate_performance_settings c.performance

/-- The default values of the validated fields from ConfigLoader._load_defaults
(src/src/utils/config_loader.py lines 29-35, 43-48, 107-112). -/
def default_config : LoadedConfig :=
  { detection :=
      { confidence_threshold := 3 / 10
        iou_threshold := 1 / 2
        detection_interval := 1 }
    performance := { cpu_limit := 80, batch_size := 1 }
    usb_camera := { enabled := false, resolution_length := 2, fps := 30 } }

/-- ConfigLoader.load (src/src/utils/config_loader.py lines 121-151):
a missing config file yields the defaults; otherwise the merged config is
validated and returned, and ANY exception — including a validation
ValueError — is caught at line 148, logged, and the defaults are returned.
The method is total: no error ever propagates to the caller. -/
def ConfigLoader_load (file_exists : Bool) (merged : LoadedConfig) : LoadedConfig :=
  if file_exists = false then default_config
  else
    match validate_config merged with
    | Except.ok _ => merged
    | Except.error _ => default_config

/- Concrete sample values used by witnesses and counterexamples. -/

/-- A sample detection dict. -/
def sampleDetection : Detection :=
  { class_name := "mosquito", class_id := 0, confidence := 9 / 10 }

/-- A second sample detection dict. -/
def sampleDetection2 : Detection :=
  { class_name := "insect", class_id := 1, confidence := 1 / 2 }

/-- A sample detection_data dict carrying one detection. -/
def sampleData : DetectionData :=
  { timestamp := 0
    classes := ["mosquito"]
    confidence := 9 / 10
    detections := [sampleDetection]
    image_path := "data/detections/detection_0.jpg" }

/-- A sample detection_data dict carrying two detections. -/
def twoDetectionData : DetectionData :=
  { timestamp := 0
    classes := ["mosquito", "insect"]
    confidence := 9 / 10
    detections := [sampleDetection, sampleDetection2]
    image_path := "data/detections/detection_0.jpg" }

/-- An enabled prevention config with threshold 1 and no cooldown. -/
def cfgBasic : PreventionConfig :=
  { enabled := true, methods := ["alert", "log"], alert_threshold := 1, cooldown_period := 0 }

/-- An enabled prevention config with a high threshold (no alert fires in
short runs) and the default cooldown. -/
def cfgHigh : PreventionConfig :=
  { enabled := true, methods := ["alert", "log"], alert_threshold := 10, cooldown_period := 300 }

/-- An enabled prevention config with the source defaults: threshold 3,
cooldown 300 seconds. -/
def cfgT3 : PreventionConfig :=
  { enabled := true, methods := ["alert", "log"], alert_threshold := 3, cooldown_period := 300 }

/-- The freshly-initialized prevention state
(src/src/prevention/prevention_manager.py lines 25-27). -/
def s0 : PreventionState :=
  { detection_count := 0, last_alert_time := none, alert_history := [] }

/-- A prevention state with two pending detections and no alert yet. -/
def sPending : PreventionState :=
  { detection_count := 2, last_alert_time := none, alert_history := [] }

/-- A sample alert record. -/
def sampleRecord : AlertRecord :=
  { timestamp := 5, detection_count := 0, detection_data := sampleData
    methods_triggered := ["alert", "log"] }

/-- A prevention state with a single-entry alert history. -/
def sHist : PreventionState :=
  { detection_count := 0, last_alert_time := some 5, alert_history := [sampleRecord] }

/-- Fresh monitoring counters. -/
def m0 : MonitoringStats := { detection_count := 0, error_count := 0 }

/-- A detector model call that raises on frame a.jpg and succeeds with one
detection elsewhere. -/
def failOnA : Frame → Except String (List Detection) :=
  fun f => if f.file_path = "a.jpg" then Except.error "Detection failed" else Except.ok [sampleDetection]

/-- The engine state after two single-detection events at times 0 and 1
under the default config (threshold 3, cooldown 300). -/
def twoEventState : PreventionState :=
  (process_detection cfgT3 (process_detection cfgT3 s0 0 sampleData).1 1 sampleData).1

/-- The result of the third single-detection event at time 2, which
crosses the threshold and fires. -/
def thirdEventResult : PreventionState × Bool :=
  process_detection cfgT3 twoEventState 2 sampleData

/-- A merged configuration with an out-of-range confidence_threshold. -/
def badConfig : LoadedConfig :=
  { default_config with detection :=
      { confidence_threshold := 2, iou_threshold := 1 / 2, detection_interval := 1 } }

/-- A suppressed-state sample: five pending detections (threshold 3 already
crossed) with the last alert at time 0, observed at time 10 while the
cooldown of 300 is still running. -/
def sSupp : PreventionState :=
  { detection_count := 5, last_alert_time := some 0, alert_history := [] }

/-- A detector model call that always succeeds with zero detections. -/
def emptyDetector : Frame → Except String (List Detection) :=
  fun _ => Except.ok []

/-- Two ingestion polls in which the identity a.jpg shows up three times
in total. -/
def pollsTwice : List (List String × (String → Bool)) :=
  [(["a.jpg", "a.jpg"], fun _ => true), (["a.jpg", "b.jpg"], fun _ => true)]

/-- A sample frame. -/
def frameA : Frame := { file_path := "a.jpg" }

/-- A second sample frame. -/
def frameB : Frame := { file_path := "b.jpg" }

/-- The monitoring configuration as a dict of numeric entries.  The only
keys MonitoringManager.__init__ reads
(src/src/monitoring/monitoring_manager.py lines 22-26) are enabled,
log_detections, save_images, analytics_enabled and retention_days; no
warning-threshold key exists anywhere in the class or in the defaults
(src/src/utils/config_loader.py lines 62-68). -/
structure MonitoringConfigDict where
  entries : List (String × Int)
deriving DecidableEq

/-- Python dict lookup config.get(key, default) on the numeric entries. -/
def configGet (c : MonitoringConfigDict) (key : String) (dflt : Int) : Int :=
  match c.entries.find? (fun p => p.1 == key) with
  | some p => p.2
  | none => dflt

/-- MonitoringManager._check_system_health as invoked on a manager built
from a configuration (src/src/monitoring/monitoring_manager.py lines
19-26 and 134-162): the method compares the sampled percentages against
the literals 80, 85 and 90 and never consults self.config, so the result
does not depend on the configuration the manager was constructed with. -/
def MonitoringManager_check_system_health (_config : MonitoringConfigDict)
    (cpu_usage memory_usage disk_usage : ℚ) : String × List String :=
  check_system_health cpu_usage memory_usage disk_usage

/-- A monitoring configuration attempting to lower every conceivable
warning threshold to 50. -/
def lowThresholdMonitoringConfig : MonitoringConfigDict :=
  { entries :=
      [("cpu_warning_threshold", 50), ("memory_warning_threshold", 50),
       ("disk_warning_threshold", 50), ("retention_days", 30)] }

/-- The numeric entries of the default monitoring configuration
(src/src/utils/config_loader.py lines 62-68). -/
def defaultMonitoringConfig : MonitoringConfigDict :=
  { entries := [("retention_days", 30)] }

/-- Claim C1: for every processed detection event of an enabled Alert
Engine, process_detection triggers prevention actions (fires an alert) if
and only if, after accounting for that event, the pending detection count
reaches the threshold AND (no alert was ever fired OR the time since the
last alert is at least the cooldown period); when either conjunct fails,
no alert fires on that event. -/
theorem alert_fires_iff_threshold_and_cooldown
    (cfg : PreventionConfig) (s : PreventionState) (now : Int) (data : DetectionData)
    (henabled : cfg.enabled = true) :
    (process_detection cfg s now data).2 = true ↔
      (cfg.alert_threshold ≤ s.detection_count + 1 ∧
        (s.last_alert_time = none ∨
          ∃ t, s.last_alert_time = some t ∧ cfg.cooldown_period ≤ now - t)) := by
  cases hl : s.last_alert_time with
  | none =>
    by_cases hT : cfg.alert_threshold ≤ s.detection_count + 1 <;>
      simp [process_detection, should_trigger_alert, cooldown_active,
        trigger_prevention_actions, henabled, hl, hT]
  | some t =>
    by_cases hC : now - t < cfg.cooldown_period <;>
      by_cases hT : cfg.alert_threshold ≤ s.detection_count + 1
    all_goals
      simp [process_detection, should_trigger_alert, cooldown_active,
        trigger_prevention_actions, henabled, hl, hT, hC]
    all_goals omega

/-- Claim C1 witness: the fire-iff-threshold-and-cooldown equivalence
instantiated at a concrete enabled configuration, fresh state and event. -/
theorem alert_fires_iff_threshold_and_cooldown_witness :
    cfgBasic.enabled = true ∧
      ((process_detection cfgBasic s0 0 sampleData).2 = true ↔
        (cfgBasic.alert_threshold ≤ s0.detection_count + 1 ∧
          (s0.last_alert_time = none ∨
            ∃ t, s0.last_alert_time = some t ∧ cfgBasic.cooldown_period ≤ 0 - t))) :=
  ⟨rfl, alert_fires_iff_threshold_and_cooldown cfgBasic s0 0 sampleData rfl⟩

/-- Claim C2 counterexample: an event carrying TWO detections increases
the pending count by 1, not by len(event.detections) = 2 — the source
line is `self.detection_count += 1`, not `+= len(...)`. -/
theorem pending_count_not_len_counterexample :
    (process_detection cfgHigh s0 0 twoDetectionData).1.detection_count ≠
      s0.detection_count + (twoDetectionData.detections.length : Int) := by decide

/-- Claim C2 as amended: for every processed event of an enabled engine,
the first step increases the pending count by exactly 1 regardless of the
event's detection list — the fire decision is evaluated on that
incremented count, and whenever no alert fires the stored count is the old
count plus 1, for every event payload. -/
theorem pending_count_increments_by_one
    (cfg : PreventionConfig) (s : PreventionState) (now : Int) (data : DetectionData)
    (henabled : cfg.enabled = true) :
    (process_detection cfg s now data).2 =
        should_trigger_alert cfg { s with detection_count := s.detection_count + 1 } now ∧
      ((process_detection cfg s now data).2 = false →
        (process_detection cfg s now data).1.detection_count = s.detection_count + 1) := by
  rcases h : should_trigger_alert cfg { s with detection_count := s.detection_count + 1 } now with _ | _ <;>
    simp [process_detection, trigger_prevention_actions, henabled, h]

/-- Claim C2 witness: after the two-detection event on a fresh state with
a high threshold, the pending count is 0 + 1, not 0 + 2. -/
theorem pending_count_increments_by_one_witness :
    (process_detection cfgHigh s0 0 twoDetectionData).1.detection_count =
      s0.detection_count + 1 :=
  (pending_count_increments_by_one cfgHigh s0 0 twoDetectionData rfl).2 (by decide)

/-- Claim C3 evidence: with threshold 3 and one-detection events at times
0, 1, 2, the third event fires; last_alert_time is set to the firing time
and the pending count is reset to 0, but the emitted alert record's
detection_count field holds 0 — not the accumulated count 2 + 1 = 3 that
crossed the threshold — because _trigger_prevention_actions resets
self.detection_count BEFORE building the record. -/
theorem alert_record_detection_count_is_zero :
    thirdEventResult.2 = true ∧
      twoEventState.detection_count = 2 ∧
      thirdEventResult.1.last_alert_time = some 2 ∧
      thirdEventResult.1.detection_count = 0 ∧
      thirdEventResult.1.alert_history.map (fun r => r.detection_count) = [0] := by decide

/-- Claim C4 counterexample: reset_detection_count resets the pending
count from 2 to 0 while firing no alert (the history and last alert time
are untouched), so the count does not only decrease at the instant an
alert fires. -/
theorem reset_without_alert_counterexample :
    (reset_detection_count sPending).detection_count = 0 ∧
      sPending.detection_count = 2 ∧
      (reset_detection_count sPending).alert_history = sPending.alert_history ∧
      (reset_detection_count sPending).last_alert_time = sPending.last_alert_time := by decide

/-- Claim C4 as amended: within process_detection the pending count never
decreases except at the instant an alert fires, when it resets to 0; in
particular while the cooldown is still running (Suppressed state) the
count is retained — incremented, not reset.  The separate public
reset_detection_count operation, however, also resets the count to 0
without firing an alert. -/
theorem pending_count_monotone_except_fire
    (cfg : PreventionConfig) (s : PreventionState) (now : Int) (data : DetectionData) :
    ((process_detection cfg s now data).2 = true →
        (process_detection cfg s now data).1.detection_count = 0) ∧
    ((process_detection cfg s now data).2 = false →
        (process_detection cfg s now data).1.detection_count = s.detection_count ∨
        (process_detection cfg s now data).1.detection_count = s.detection_count + 1) ∧
    (cfg.enabled = true → ∀ t, s.last_alert_time = some t → now - t < cfg.cooldown_period →
        (process_detection cfg s now data).2 = false ∧
        (process_detection cfg s now data).1.detection_count = s.detection_count + 1) := by
  refine ⟨?_, ?_, ?_⟩
  · rcases he : cfg.enabled with _ | _
    · simp [process_detection, he]
    · rcases h : should_trigger_alert cfg { s with detection_count := s.detection_count + 1 } now with _ | _ <;>
        simp [process_detection, trigger_prevention_actions, he, h]
  · rcases he : cfg.enabled with _ | _
    · simp [process_detection, he]
    · rcases h : should_trigger_alert cfg { s with detection_count := s.detection_count + 1 } now with _ | _ <;>
        simp [process_detection, trigger_prevention_actions, he, h]
  · intro he t hl hC
    simp [process_detection, should_trigger_alert, cooldown_active,
      trigger_prevention_actions, he, hl, hC]

/-- Claim C4 witness: in a suppressed state (five pending, last alert at
time 0, observed at time 10, cooldown 300) the event does not fire and
the pending count advances from 5 to 6 — retained, not reset. -/
theorem pending_count_monotone_except_fire_witness :
    (process_detection cfgT3 sSupp 10 sampleData).2 = false ∧
      (process_detection cfgT3 sSupp 10 sampleData).1.detection_count =
        sSupp.detection_count + 1 :=
  (pending_count_monotone_except_fire cfgT3 sSupp 10 sampleData).2.2 rfl 0 rfl (by decide)

/-- Claim C5 counterexample: a merged configuration with
confidence_threshold = 2 makes validation raise, yet ConfigLoader.load
catches the error and successfully returns the default configuration —
startup does not fail and the invalid configuration is silently replaced. -/
theorem invalid_config_not_fatal_counterexample :
    validate_config badConfig = Except.error "confidence_threshold must be between 0.0 and 1.0" ∧
      ConfigLoader_load true badConfig = default_config :=
  ⟨rfl, rfl⟩

/-- Claim C5 as amended: invalid threshold/interval values do raise a
ValueError inside validation, but ConfigLoader.load catches every
exception and returns the defaults, so for every invalid merged
configuration load completes normally with the default configuration
instead of failing fast. -/
theorem invalid_config_replaced_by_defaults (c : LoadedConfig) (e : String)
    (h : validate_config c = Except.error e) :
    ConfigLoader_load true c = default_config := by
  simp [ConfigLoader_load, h]

/-- Claim C5 witness: loading the out-of-range configuration returns the
defaults. -/
theorem invalid_config_replaced_by_defaults_witness :
    ConfigLoader_load true badConfig = default_config :=
  invalid_config_replaced_by_defaults badConfig
    "confidence_threshold must be between 0.0 and 1.0" rfl

/-- Claim C6 counterexample: for a frame whose detection list is empty the
detection worker constructs NO detection_data dict at all (the dict is
built only inside `if detections:`), contradicting "constructs a
DetectionEvent even when the detection list is empty". -/
theorem empty_event_not_constructed_counterexample :
    detection_worker_event [] 0 = none := rfl

/-- Claim C6 as amended: the detection worker constructs a DetectionEvent
exactly when the detection list is non-empty, so an empty detection list
produces no event and never feeds the Alert Engine; consequently if the
Detector always returns an empty list, a run of any length leaves the
prevention and monitoring state untouched and fires zero alerts. -/
theorem empty_detections_never_alert
    (cfg : PreventionConfig) (model_loaded : Bool)
    (run_model : Frame → Except String (List Detection)) :
    (∀ (ds : List Detection) (now : Int), detection_worker_event ds now = none ↔ ds = []) ∧
    ((∀ f, run_model f = Except.ok []) →
      ∀ (frames : List (Frame × Int)) (st : PreventionState × MonitoringStats),
        detection_worker_run cfg model_loaded run_model frames st = (st, 0)) := by
  constructor
  · intro ds now
    cases ds <;> simp [detection_worker_event]
  · intro hempty frames
    induction frames with
    | nil => intro st; rfl
    | cons p rest ih =>
      intro st
      obtain ⟨f, t⟩ := p
      have hdet : MosquitoDetector_detect model_loaded run_model f = [] := by
        rcases model_loaded with _ | _ <;> simp [MosquitoDetector_detect, hempty f]
      simp [detection_worker_run, detection_worker_step, hdet, detection_worker_event, ih]

/-- Claim C6 witness: a two-frame run with a detector that always returns
zero detections leaves the state untouched and fires zero alerts. -/
theorem empty_detections_never_alert_witness :
    detection_worker_run cfgT3 true emptyDetector [(frameA, 0), (frameB, 1)] (s0, m0) =
      ((s0, m0), 0) :=
  (empty_detections_never_alert cfgT3 true emptyDetector).2 (fun _ => rfl)
    [(frameA, 0), (frameB, 1)] (s0, m0)

/-- Helper for claim C7: identities already in processed_files stay in it
through a poll. -/
theorem loop_processed_mono (read_ok : String → Bool) (files processed : List String)
    (x : String) (hx : x ∈ processed) :
    x ∈ (get_phone_link_frames_loop read_ok files processed).2 := by
  induction files generalizing processed with
  | nil => simpa [get_phone_link_frames_loop]
  | cons f rest ih =>
    by_cases hf : f ∈ processed
    · simpa [get_phone_link_frames_loop, hf] using ih processed hx
    · by_cases hr : read_ok f
      · simp only [get_phone_link_frames_loop, if_neg hf, if_pos hr]
        exact ih (processed ++ [f]) (by simp [hx])
      · simp only [get_phone_link_frames_loop, if_neg hf, if_neg hr]
        exact ih processed hx

/-- Helper for claim C7: an identity already in processed_files is never
emitted by a poll. -/
theorem loop_count_zero_of_processed (read_ok : String → Bool) (files processed : List String)
    (x : String) (hx : x ∈ processed) :
    (get_phone_link_frames_loop read_ok files processed).1.count x = 0 := by
  induction files generalizing processed with
  | nil => simp [get_phone_link_frames_loop]
  | cons f rest ih =>
    by_cases hf : f ∈ processed
    · simp only [get_phone_link_frames_loop, if_pos hf]
      exact ih processed hx
    · by_cases hr : read_ok f
      · have hxf : x ≠ f := fun h => hf (h ▸ hx)
        simp only [get_phone_link_frames_loop, if_neg hf, if_pos hr]
        simp [List.count_cons, hxf]
        exact ih (processed ++ [f]) (by simp [hx])
      · simp only [get_phone_link_frames_loop, if_neg hf, if_neg hr]
        exact ih processed hx

/-- Helper for claim C7: every identity a poll emits ends up in
processed_files. -/
theorem loop_emitted_mem_processed (read_ok : String → Bool) (files processed : List String)
    (x : String) (hx : x ∈ (get_phone_link_frames_loop read_ok files processed).1) :
    x ∈ (get_phone_link_frames_loop read_ok files processed).2 := by
  induction files generalizing processed with
  | nil => simp [get_phone_link_frames_loop] at hx
  | cons f rest ih =>
    by_cases hf : f ∈ processed
    · simp only [get_phone_link_frames_loop, if_pos hf] at hx ⊢
      exact ih processed hx
    · by_cases hr : read_ok f
      · simp only [get_phone_link_frames_loop, if_neg hf, if_pos hr] at hx ⊢
        rcases List.mem_cons.mp hx with h | h
        · subst h
          exact loop_processed_mono read_ok rest (processed ++ [x]) x (by simp)
        · exact ih (processed ++ [f]) h
      · simp only [get_phone_link_frames_loop, if_neg hf, if_neg hr] at hx ⊢
        exact ih processed hx

/-- Helper for claim C7: a single poll emits any given identity at most
once. -/
theorem loop_count_le_one (read_ok : String → Bool) (files processed : List String)
    (x : String) :
    (get_phone_link_frames_loop read_ok files processed).1.count x ≤ 1 := by
  induction files generalizing processed with
  | nil => simp [get_phone_link_frames_loop]
  | cons f rest ih =>
    by_cases hf : f ∈ processed
    · simp only [get_phone_link_frames_loop, if_pos hf]
      exact ih processed
    · by_cases hr : read_ok f
      · simp only [get_phone_link_frames_loop, if_neg hf, if_pos hr]
        by_cases hxf : x = f
        · subst hxf
          have hz : (get_phone_link_frames_loop read_ok rest (processed ++ [x])).1.count x = 0 :=
            loop_count_zero_of_processed read_ok rest (processed ++ [x]) x (by simp)
          simp [List.count_cons, hz]
        · have hfx : ¬ f = x := fun h => hxf h.symm
          simp [List.count_cons, hfx]
          exact ih (processed ++ [f])
      · simp only [get_phone_link_frames_loop, if_neg hf, if_neg hr]
        exact ih processed

/-- Helper for claim C7: across a whole run, an identity that is already
in processed_files is never emitted again and stays in the set. -/
theorem run_count_zero_of_processed (polls : List (List String × (String → Bool)))
    (processed : List String) (x : String) (hx : x ∈ processed) :
    (phone_link_run polls processed).1.count x = 0 ∧ x ∈ (phone_link_run polls processed).2 := by
  induction polls generalizing processed with
  | nil => simpa [phone_link_run]
  | cons p polls ih =>
    obtain ⟨files, read_ok⟩ := p
    have h1 := loop_count_zero_of_processed read_ok files processed x hx
    have h2 := loop_processed_mono read_ok files processed x hx
    have h3 := ih _ h2
    simp [phone_link_run, List.count_append, h1, h3.1, h3.2]

/-- Claim C7: over any sequence of ingestion polls, every frame identity
is delivered to the Detection Worker at most once — its total emission
count is at most 1 — and every identity that was delivered is recorded in
the seen-identity set (processed_files). -/
theorem frame_identity_delivered_at_most_once (polls : List (List String × (String → Bool)))
    (processed : List String) (x : String) :
    (phone_link_run polls processed).1.count x ≤ 1 ∧
      (x ∈ (phone_link_run polls processed).1 → x ∈ (phone_link_run polls processed).2) := by
  induction polls generalizing processed with
  | nil => simp [phone_link_run]
  | cons p polls ih =>
    obtain ⟨files, read_ok⟩ := p
    constructor
    · simp only [phone_link_run, List.count_append]
      by_cases hmem : x ∈ (get_phone_link_frames_loop read_ok files processed).1
      · have hp := loop_emitted_mem_processed read_ok files processed x hmem
        have hz := (run_count_zero_of_processed polls _ x hp).1
        have h1 := loop_count_le_one read_ok files processed x
        omega
      · have hz : (get_phone_link_frames_loop read_ok files processed).1.count x = 0 :=
          List.count_eq_zero.mpr hmem
        have h2 := (ih ((get_phone_link_frames_loop read_ok files processed).2)).1
        omega
    · intro hx
      simp only [phone_link_run, List.mem_append] at hx ⊢
      rcases hx with h | h
      · have hp := loop_emitted_mem_processed read_ok files processed x h
        exact (run_count_zero_of_processed polls _ x hp).2
      · exact (ih ((get_phone_link_frames_loop read_ok files processed).2)).2 h

/-- Claim C7 witness: with a.jpg listed three times across two polls, it
is emitted at most once and is recorded in processed_files. -/
theorem frame_identity_delivered_at_most_once_witness :
    (phone_link_run pollsTwice []).1.count "a.jpg" ≤ 1 ∧
      "a.jpg" ∈ (phone_link_run pollsTwice []).2 :=
  ⟨(frame_identity_delivered_at_most_once pollsTwice [] "a.jpg").1,
   (frame_identity_delivered_at_most_once pollsTwice [] "a.jpg").2 (by decide)⟩

/-- Claim C8 counterexample: the warning thresholds are not configurable.
With CPU at 60%, a configuration that sets every conceivable warning
threshold to 50 yields exactly the same verdict as the default
configuration — healthy, although 60 exceeds the configured 50 — because
_check_system_health compares against the hard-coded literals 80/85/90
and reads no configuration key at all. -/
theorem thresholds_not_configurable_counterexample :
    MonitoringManager_check_system_health lowThresholdMonitoringConfig 60 50 50 =
      MonitoringManager_check_system_health defaultMonitoringConfig 60 50 50 ∧
    (MonitoringManager_check_system_health lowThresholdMonitoringConfig 60 50 50).1 =
      "healthy" := by
  decide

/-- Claim C8 as amended: the health check declares warning exactly when
cpu > 80 or memory > 85 or disk > 90 — these thresholds being hard-coded
constants, not configurable — declares healthy otherwise, and never
declares down from resource pressure: it reads only the three resource
percentages, independent of any ingestion or detection state and of the
configuration. -/
theorem health_warning_iff_thresholds (cpu memory disk : ℚ) :
    ((check_system_health cpu memory disk).1 = "warning" ↔
        (80 < cpu ∨ 85 < memory ∨ 90 < disk)) ∧
    ((check_system_health cpu memory disk).1 = "healthy" ↔
        ¬ (80 < cpu ∨ 85 < memory ∨ 90 < disk)) ∧
    (check_system_health cpu memory disk).1 ≠ "down" := by
  by_cases h1 : (80 : ℚ) < cpu <;> by_cases h2 : (85 : ℚ) < memory <;>
    by_cases h3 : (90 : ℚ) < disk <;>
    simp [check_system_health, h1, h2, h3]

/-- Claim C8 witness: cpu 90 yields warning, cpu 20 with low memory and
disk yields healthy, and neither is down. -/
theorem health_warning_iff_thresholds_witness :
    (check_system_health 90 50 50).1 = "warning" ∧
      (check_system_health 20 50 50).1 = "healthy" ∧
      (check_system_health 90 50 50).1 ≠ "down" :=
  ⟨(health_warning_iff_thresholds 90 50 50).1.mpr (Or.inl (by decide)),
   (health_warning_iff_thresholds 20 50 50).2.1.mpr (by decide),
   (health_warning_iff_thresholds 90 50 50).2.2⟩

/-- Claim C9 counterexample: with a detector that raises on frame a.jpg
and succeeds on frame b.jpg, a two-frame run ends with error_count still
0 — no visible error counter is incremented on the Detector failure (the
exception is swallowed inside detect as an empty list) — while the worker
did continue and processed b.jpg (detection_count 1). -/
theorem detector_failure_counter_counterexample :
    (detection_worker_run cfgHigh true failOnA
        [(frameA, 0), (frameB, 1)] (s0, m0)).1.2.error_count = 0 ∧
    (detection_worker_run cfgHigh true failOnA
        [(frameA, 0), (frameB, 1)] (s0, m0)).1.2.detection_count = 1 := by
  decide

/-- Claim C9 as amended: when the Detector call fails, detect catches the
exception (logging it) and returns an empty list, so the worker sees no
detections: the failing frame is skipped with no event, no state or
counter change, and no retry — the run on the remaining frames proceeds
exactly as if the failing frame had not been scheduled, and the failure
never propagates out of the worker. -/
theorem detector_failure_skips_frame (cfg : PreventionConfig)
    (run_model : Frame → Except String (List Detection)) (frame : Frame) (now : Int) (e : String)
    (hfail : run_model frame = Except.error e) :
    MosquitoDetector_detect true run_model frame = [] ∧
    (∀ st : PreventionState × MonitoringStats,
        detection_worker_step cfg true run_model frame now st = (st, false)) ∧
    (∀ (rest : List (Frame × Int)) (st : PreventionState × MonitoringStats),
        detection_worker_run cfg true run_model ((frame, now) :: rest) st =
          detection_worker_run cfg true run_model rest st) := by
  have hdet : MosquitoDetector_detect true run_model frame = [] := by
    simp [MosquitoDetector_detect, hfail]
  refine ⟨hdet, ?_, ?_⟩
  · intro st
    simp [detection_worker_step, hdet, detection_worker_event]
  · intro rest st
    simp [detection_worker_run, detection_worker_step, hdet, detection_worker_event]

/-- Claim C9 witness: the failing a.jpg frame leaves the state exactly
unchanged, with the detector returning an empty list. -/
theorem detector_failure_skips_frame_witness :
    MosquitoDetector_detect true failOnA frameA = [] ∧
      detection_worker_step cfgHigh true failOnA frameA 0 (s0, m0) = ((s0, m0), false) :=
  ⟨(detector_failure_skips_frame cfgHigh failOnA frameA 0 "Detection failed" rfl).1,
   (detector_failure_skips_frame cfgHigh failOnA frameA 0 "Detection failed" rfl).2.1 (s0, m0)⟩

/-- Claim C10: get_alert_history returns [] on an empty history; for
limit >= 1 it returns the suffix of the min(limit, length) most recent
records in order; and for limit = 0 on a non-empty history it returns the
ENTIRE history (the slice [-0:] is the whole list), not zero records. -/
theorem get_alert_history_spec (s : PreventionState) (limit : Int) :
    (s.alert_history = [] → get_alert_history s limit = []) ∧
    (1 ≤ limit →
      (get_alert_history s limit).length = min limit.toNat s.alert_history.length ∧
      (get_alert_history s limit).IsSuffix s.alert_history) ∧
    (limit = 0 → s.alert_history ≠ [] → get_alert_history s limit = s.alert_history) := by
  refine ⟨?_, ?_, ?_⟩
  · intro h
    simp [get_alert_history, h]
  · intro hlim
    by_cases hh : s.alert_history.isEmpty
    · simp [get_alert_history, hh]
      rw [List.isEmpty_iff] at hh
      simp [hh]
    · have hneg : (-limit : Int) < 0 := by omega
      simp only [get_alert_history, pySliceFrom, hh, if_neg (by simp : ¬(false = true))]
      constructor
      · simp [hneg, List.length_drop]
        omega
      · exact List.drop_suffix _ _
  · intro h0 hne
    have hh : ¬ s.alert_history.isEmpty := by simpa [List.isEmpty_iff] using hne
    simp [get_alert_history, pySliceFrom, h0, hh]

/-- Claim C10 witness: the three branches at concrete inputs — empty
history yields [], limit 2 on a one-record history yields that record,
and limit 0 on a non-empty history yields the whole history. -/
theorem get_alert_history_spec_witness :
    get_alert_history s0 5 = [] ∧
      (get_alert_history sHist 2).length = min (Int.toNat 2) sHist.alert_history.length ∧
      get_alert_history sHist 0 = sHist.alert_history :=
  ⟨(get_alert_history_spec s0 5).1 rfl,
   ((get_alert_history_spec sHist 2).2.1 (by decide)).1,
   (get_alert_history_spec sHist 0).2.2 rfl (by decide)⟩

end IronDome
